import Mathlib

/-!
Verification of the time-series reconciliation core of
`src/mlapp/client/src/components/Dashboard.js`.

The JavaScript code is shallowly embedded: JS numbers are modelled as an
inductive type with NaN, the two infinities and finite rationals; JS primitive
values as a sum type; `Number(x)` coercion, truthiness and `||` are modelled
explicitly.  `new Date(s)` on the ISO `YYYY-MM-DD` strings used by the app is
modelled by `parseDate`, which returns a key that is order-isomorphic to the
real timestamp (`none` models an Invalid Date, whose time value is NaN).
`Array.prototype.sort` with the comparator
`(a, b) => new Date(a.date) - new Date(b.date)` is stable (ES2019), and the
output of a stable sort for a consistent comparator is unique, so it is
modelled by the stable `List.insertionSort` on the parsed-date key; theorems
about the resulting order assume all dates parse, since with an
Invalid-Date operand the JS comparator returns NaN and the resulting order is
implementation-defined (the sort is still a permutation).
-/

/-- Model of a JavaScript number: NaN, one of the two infinities, or a finite
value (modelled as a rational, which covers every value appearing here). -/
inductive JSNum where
  | nan : JSNum
  | posInf : JSNum
  | negInf : JSNum
  | val : ℚ → JSNum
  deriving DecidableEq

/-- A JS number is finite iff it is neither NaN nor an infinity. -/
def JSNum.finite : JSNum → Bool
  | .val _ => true
  | _ => false

/-- A JS number is falsy iff it is NaN or zero. -/
def JSNum.falsy : JSNum → Bool
  | .nan => true
  | .val q => q == 0
  | _ => false

/-- `x || y` for JS numbers: `y` when `x` is falsy (NaN or 0), else `x`. -/
def jsOr (a b : JSNum) : JSNum := if a.falsy then b else a

/-- Model of a JavaScript primitive value, as it can appear in a field of a
JSON-shaped API response. -/
inductive JSValue where
  | undef : JSValue
  | null : JSValue
  | bool : Bool → JSValue
  | num : JSNum → JSValue
  | str : String → JSValue
  deriving DecidableEq

/-- Split a character list at every occurrence of `c` (string `splitOn` over
the underlying characters). -/
def splitOnChar (c : Char) : List Char → List (List Char)
  | [] => [[]]
  | x :: xs =>
      let r := splitOnChar c xs
      if x = c then [] :: r
      else
        match r with
        | [] => [[x]]
        | h :: t => (x :: h) :: t

/-- Decimal digit test. -/
def isDigitChar (c : Char) : Bool := 48 ≤ c.toNat && c.toNat ≤ 57

/-- Whitespace test, for the trimming StringToNumber performs. -/
def isWsChar (c : Char) : Bool := c = ' ' || c = '\t' || c = '\n' || c = '\r'

/-- Trim whitespace from both ends of a character list. -/
def trimChars (l : List Char) : List Char :=
  ((l.dropWhile isWsChar).reverse.dropWhile isWsChar).reverse

/-- Value of a digit string. -/
def digitsVal (cs : List Char) : ℕ :=
  cs.foldl (fun n c => n * 10 + (c.toNat - 48)) 0

/-- An unsigned decimal numeral: digits with an optional fractional part
(`"5"`, `"5."`, `".5"`, `"7.25"`). -/
def parseUnsignedDec (t : List Char) : Option ℚ :=
  match splitOnChar '.' t with
  | [ip] =>
      if !ip.isEmpty && ip.all isDigitChar then some (digitsVal ip : ℚ)
      else none
  | [ip, fp] =>
      if (!ip.isEmpty || !fp.isEmpty) && ip.all isDigitChar && fp.all isDigitChar then
        some ((digitsVal ip : ℚ) + (digitsVal fp : ℚ) / (10 : ℚ) ^ fp.length)
      else none
  | _ => none

/-- ECMAScript StringToNumber on the string forms relevant here: whitespace is
trimmed; the empty string is 0; `"Infinity"` forms give the infinities; a signed
decimal numeral gives its value; anything else is NaN (hex/exponent numerals are
outside the inputs considered). -/
def strToNum (s : String) : JSNum :=
  let t := trimChars s.data
  if t = [] then .val 0
  else if t = "Infinity".data || t = "+Infinity".data then .posInf
  else if t = "-Infinity".data then .negInf
  else
    match t with
    | '-' :: rest =>
        match parseUnsignedDec rest with
        | some q => .val (-q)
        | none => .nan
    | '+' :: rest =>
        match parseUnsignedDec rest with
        | some q => .val q
        | none => .nan
    | _ =>
        match parseUnsignedDec t with
        | some q => .val q
        | none => .nan

/-- The ECMAScript `Number(v)` coercion on primitive values. -/
def jsToNumber : JSValue → JSNum
  | .undef => .nan
  | .null => .val 0
  | .bool b => .val (if b then 1 else 0)
  | .num n => n
  | .str s => strToNum s

/-- ECMAScript truthiness of a primitive value. -/
def jsTruthy : JSValue → Bool
  | .undef => false
  | .null => false
  | .bool b => b
  | .num n => !n.falsy
  | .str s => !s.isEmpty

/-- `x * 100` on JS numbers. -/
def jsMul100 : JSNum → JSNum
  | .nan => .nan
  | .posInf => .posInf
  | .negInf => .negInf
  | .val q => .val (q * 100)

/-- `Math.round` (round half up); NaN and the infinities pass through. -/
def jsRound : JSNum → JSNum
  | .val q => .val ((⌊q + 1 / 2⌋ : ℤ) : ℚ)
  | n => n

/-- Days in a month of the proleptic Gregorian calendar. -/
def daysInMonth (y m : ℕ) : ℕ :=
  if m = 2 then (if (y % 4 = 0 && y % 100 != 0) || y % 400 = 0 then 29 else 28)
  else if m = 4 || m = 6 || m = 9 || m = 11 then 30 else 31

/-- Models `new Date(s).getTime()` for the ISO `YYYY-MM-DD` date strings used
by the app, up to order-isomorphism: a valid date is encoded as a key whose
numeric order agrees with the real timestamp order; an invalid string gives
`none` (an Invalid Date, whose time value is NaN). -/
def parseDate (s : String) : Option ℕ :=
  match splitOnChar '-' s.data with
  | [ys, ms, ds] =>
      if ys.length = 4 && ms.length = 2 && ds.length = 2
          && ys.all isDigitChar && ms.all isDigitChar && ds.all isDigitChar then
        let y := digitsVal ys
        let m := digitsVal ms
        let d := digitsVal ds
        if 1 ≤ m ∧ m ≤ 12 ∧ 1 ≤ d ∧ d ≤ daysInMonth y m then
          some (y * 372 + (m - 1) * 31 + (d - 1))
        else none
      else none
  | _ => none

/-- The sort key actually used by the comparators: the parsed date, totalised.
Theorems about order are only asserted for inputs on which every date parses. -/
def dateNum (s : String) : ℕ := (parseDate s).getD 0

/-- `key a ≤ key b`: the ordering induced by the comparator
`(a, b) => new Date(a.date) - new Date(b.date)`. -/
def keyLe {α : Type} (key : α → ℕ) (a b : α) : Prop := key a ≤ key b

instance {α : Type} (key : α → ℕ) : DecidableRel (keyLe key) :=
  fun _ _ => Nat.decLe _ _

instance {α : Type} (key : α → ℕ) : IsTotal α (keyLe key) :=
  ⟨fun _ _ => Nat.le_total _ _⟩

instance {α : Type} (key : α → ℕ) : IsTrans α (keyLe key) :=
  ⟨fun _ _ _ => Nat.le_trans⟩

/-- `arr.sort((a, b) => new Date(a.date) - new Date(b.date))`, modelled by the
stable insertion sort on the parsed-date key. -/
def sortByDate {α : Type} (key : α → String) (l : List α) : List α :=
  List.insertionSort (keyLe fun a => dateNum (key a)) l

/-- A raw history log entry (`logsRes.data[i]`): only the fields the dashboard
reads.  `duration` is an arbitrary primitive, possibly malformed. -/
structure LogEntry where
  date : String
  duration : JSValue
  deriving DecidableEq

/-- The `range` object of a forecast point; either bound may be absent. -/
structure RangeObj where
  min : Option JSValue
  max : Option JSValue
  deriving DecidableEq

/-- A raw forecast point (`forecastRes.data.forecast[i]`). -/
structure ForecastPoint where
  date : String
  hours : JSValue
  range : Option RangeObj
  deriving DecidableEq

/-- The forecast bundle (`forecastRes.data`): a sequence of points (possibly
absent) and an overall `confidence` scalar (possibly absent, possibly of the
wrong type). -/
structure ForecastBundle where
  forecast : Option (List ForecastPoint)
  confidence : Option JSValue
  deriving DecidableEq

/-- A normalized chart point, the shape fed to the chart. -/
structure ChartPoint where
  date : String
  hours : JSNum
  min : JSNum
  max : JSNum
  type : String
  deriving DecidableEq

/-- The per-entry body of the history map (Dashboard.js lines 41-46):
`{ date: log.date, hours: Number(log.duration) || 0, min: ..., max: ...,
type: 'history' }`. -/
def toHistoryPoint (log : LogEntry) : ChartPoint :=
  { date := log.date
    hours := jsOr (jsToNumber log.duration) (.val 0)
    min := jsOr (jsToNumber log.duration) (.val 0)
    max := jsOr (jsToNumber log.duration) (.val 0)
    type := "history" }

/-- Dashboard.js lines 41-47: map the raw logs to chart points and sort them by
parsed date. -/
def normalizeHistory (logs : List LogEntry) : List ChartPoint :=
  sortByDate (fun p => p.date) (logs.map toHistoryPoint)

/-- `Number(f.range?.min)` / `Number(f.range?.max)`: `undefined` (hence NaN)
when the range object or the selected bound is absent. -/
def coerceRangeField (sel : RangeObj → Option JSValue) (f : ForecastPoint) : JSNum :=
  match f.range with
  | none => .nan
  | some r =>
      match sel r with
      | none => .nan
      | some v => jsToNumber v

/-- The per-point body of the forecast map (Dashboard.js lines 50-56):
`{ date: f.date, hours: Number(f.hours) || 0,
min: Number(f.range?.min) || Number(f.hours) || 0,
max: Number(f.range?.max) || Number(f.hours) || 0, type: 'forecast' }`. -/
def toForecastChartPoint (f : ForecastPoint) : ChartPoint :=
  { date := f.date
    hours := jsOr (jsToNumber f.hours) (.val 0)
    min := jsOr (coerceRangeField (fun r => r.min) f) (jsOr (jsToNumber f.hours) (.val 0))
    max := jsOr (coerceRangeField (fun r => r.max) f) (jsOr (jsToNumber f.hours) (.val 0))
    type := "forecast" }

/-- Dashboard.js lines 50-56 (the forecast map; no sort here). -/
def normalizeForecast (fs : List ForecastPoint) : List ChartPoint :=
  fs.map toForecastChartPoint

/-- Dashboard.js lines 59-61: `[...historyData, ...forecastPoints].sort(
(a, b) => new Date(a.date) - new Date(b.date))`. -/
def mergeSeries (historyData forecastPoints : List ChartPoint) : List ChartPoint :=
  sortByDate (fun p => p.date) (historyData ++ forecastPoints)

/-- Short month names used by `toLocaleDateString('en-US', { month: 'short' })`. -/
def monthShortName (m : ℕ) : String :=
  (["Jan", "Feb", "Mar", "Apr", "May", "Jun",
    "Jul", "Aug", "Sep", "Oct", "Nov", "Dec"].getD (m - 1) "Jan")

/-- Decode a parsed-date key back to its `"Mon D"` display form. -/
def formatMonthDay (n : ℕ) : String :=
  monthShortName (n % 372 / 31 + 1) ++ " " ++ toString (n % 31 + 1)

/-- Dashboard.js lines 72-79.  `new Date(bad)` does not throw: it yields an
Invalid Date, and `toLocaleDateString` renders an Invalid Date as the string
`"Invalid Date"`; the catch branch is unreachable for any string input. -/
def formatDate (dateStr : String) : String :=
  match parseDate dateStr with
  | some n => formatMonthDay n
  | none => "Invalid Date"

/-- Dashboard.js lines 90-96: `const fcArr = forecast?.forecast ?? []; if
(!Array.isArray(fcArr) || fcArr.length === 0) return null; const sorted =
[...fcArr].sort((a, b) => new Date(a.date) - new Date(b.date)); return
sorted[0];`. -/
def nextForecast (forecast : Option ForecastBundle) : Option ForecastPoint :=
  let fcArr := (forecast.bind fun b => b.forecast).getD []
  if fcArr.length = 0 then none
  else (sortByDate (fun p => p.date) fcArr).head?

/-- Dashboard.js line 145: `forecast?.confidence ?
`${Math.round(forecast.confidence * 100)}%` : '—'`; the branch is chosen by the
truthiness of the raw `confidence` value, and `none` models the em-dash
placeholder. -/
def confidencePercent (forecast : Option ForecastBundle) : Option JSNum :=
  match forecast.bind fun b => b.confidence with
  | none => none
  | some v => if jsTruthy v then some (jsRound (jsMul100 (jsToNumber v))) else none

/-- The forecast summary record produced by the summary card (lines 137-150). -/
structure ForecastSummary where
  point : Option ForecastPoint
  confidencePercent : Option JSNum
  deriving DecidableEq

/-- The forecast summary (Dashboard.js lines 90-96 and 137-150): the selected
next forecast point, and the confidence percentage that is rendered with it
(nothing is rendered when there is no point). -/
def summarize (forecast : Option ForecastBundle) : ForecastSummary :=
  match nextForecast forecast with
  | none => { point := none, confidencePercent := none }
  | some p => { point := some p, confidencePercent := confidencePercent forecast }

/-- The stats record (`statsRes.data`). -/
structure Stats where
  totalHours : JSNum
  avgPerDay : JSNum
  entries : JSNum
  deriving DecidableEq

/-- The stats default `{ totalHours: 0, avgPerDay: 0, entries: 0 }`. -/
def defaultStats : Stats :=
  { totalHours := .val 0, avgPerDay := .val 0, entries := .val 0 }

/-- The component state slots relevant to reconciliation. -/
structure DashState where
  stats : Stats
  forecast : Option ForecastBundle
  logs : List ChartPoint
  loading : Bool
  deriving DecidableEq

/-- The initial component state (Dashboard.js lines 17-20). -/
def initialState : DashState :=
  { stats := defaultStats, forecast := none, logs := [], loading := true }

/-- Dashboard.js lines 27-70.  `Except.error` models an API call whose promise
rejected; `Except.ok none` a fulfilled call whose `.data` is nullish.
`Promise.all` rejects as soon as any of the three rejects, so in that case the
catch branch runs and none of the three setters is invoked: every slot keeps
its prior value and only `loading` is cleared by the finally block.  The
`?? `-defaults of lines 37, 38, 41 and 50 apply per source, but only on the
all-fulfilled path. -/
def loadData (st : DashState)
    (statsRes : Except Unit (Option Stats))
    (forecastRes : Except Unit (Option ForecastBundle))
    (logsRes : Except Unit (Option (List LogEntry))) : DashState :=
  match statsRes, forecastRes, logsRes with
  | .ok sd, .ok fd, .ok ld =>
      let historyData := normalizeHistory (ld.getD [])
      let forecastPoints := normalizeForecast ((fd.bind fun b => b.forecast).getD [])
      { stats := sd.getD defaultStats
        forecast := fd
        logs := mergeSeries historyData forecastPoints
        loading := false }
  | _, _, _ => { st with loading := false }

/-- Written from the spec's words (§4.3), for comparison with the code: the
earliest-dated forecast point, keeping the first point in input order when
several share the earliest date. -/
def earliestByDate : List ForecastPoint → Option ForecastPoint
  | [] => none
  | x :: t =>
      match earliestByDate t with
      | none => some x
      | some m => some (if dateNum m.date < dateNum x.date then m else x)

/-- Dashboard.js lines 90-96 with the array state made explicit: `[...fcArr]`
copies the array and `.sort` (which sorts in place) acts only on that copy, so
the pair returns the selected point together with the caller's array as it is
observable after the call. -/
def nextForecastFrame (fcArr : List ForecastPoint) :
    Option ForecastPoint × List ForecastPoint :=
  if fcArr.length = 0 then (none, fcArr)
  else
    let copied := fcArr
    let sorted := sortByDate (fun p => p.date) copied
    (sorted.head?, fcArr)

/-- `x || y` never produces NaN when the fallback `y` is not NaN: a falsy `x`
is replaced by `y`, and a truthy `x` is by definition not NaN. -/
theorem jsOr_ne_nan (a b : JSNum) (hb : b ≠ JSNum.nan) : jsOr a b ≠ JSNum.nan := by
  cases a with
  | nan => simpa [jsOr, JSNum.falsy] using hb
  | posInf => simp [jsOr, JSNum.falsy]
  | negInf => simp [jsOr, JSNum.falsy]
  | val q =>
      by_cases h : q = 0
      · simpa [jsOr, JSNum.falsy, h] using hb
      · simp [jsOr, JSNum.falsy, h]

/-- Sorting is a permutation: membership is preserved. -/
theorem mem_sortByDate {α : Type} (key : α → String) (l : List α) (p : α) :
    p ∈ sortByDate key l ↔ p ∈ l :=
  (List.perm_insertionSort _ l).mem_iff

/-- Sorting is a permutation: the length is preserved. -/
theorem length_sortByDate {α : Type} (key : α → String) (l : List α) :
    (sortByDate key l).length = l.length :=
  List.length_insertionSort _ l

/-- The sort output is sorted with respect to its key. -/
theorem sorted_sortByDate {α : Type} (key : α → String) (l : List α) :
    (sortByDate key l).Sorted (keyLe fun a => dateNum (key a)) :=
  List.sorted_insertionSort _ l

/-- C1: `merge(H, F)` returns a sequence of length `|H| + |F|` — no point is
dropped, merged or deduplicated, even when dates collide — and, provided every
point's date string parses to a valid calendar instant, the result is
non-decreasing by parsed date. -/
theorem mergeSeries_length_sorted (H F : List ChartPoint) :
    (mergeSeries H F).length = H.length + F.length ∧
    ((∀ p ∈ H ++ F, (parseDate p.date).isSome) →
      (mergeSeries H F).Sorted fun a b => dateNum a.date ≤ dateNum b.date) := by
  constructor
  · rw [mergeSeries, length_sortByDate, List.length_append]
  · intro _
    exact sorted_sortByDate (fun p => p.date) (H ++ F)

/-- C1 witness: a concrete one-point history and one-point forecast. -/
theorem mergeSeries_length_sorted_witness :
    (mergeSeries [⟨"2024-01-01", .val 2, .val 2, .val 2, "history"⟩]
        [⟨"2024-01-02", .val 3, .val 2, .val 4, "forecast"⟩]).length = 2 ∧
    (mergeSeries [⟨"2024-01-01", .val 2, .val 2, .val 2, "history"⟩]
        [⟨"2024-01-02", .val 3, .val 2, .val 4, "forecast"⟩]).Sorted
      (fun a b => dateNum a.date ≤ dateNum b.date) :=
  ⟨(mergeSeries_length_sorted _ _).1, (mergeSeries_length_sorted _ _).2 (by decide)⟩

/-- C2 counterexample: a log entry whose `duration` is the string
`"Infinity"` coerces to the number `Infinity`, which is truthy, so
`Number(log.duration) || 0` passes it through: the produced `hours` is a
number but NOT finite, contradicting the claim's "finite" invariant. -/
theorem normalizeHistory_not_finite_cex :
    (normalizeHistory [⟨"2024-01-01", .str "Infinity"⟩]).map (fun p => p.hours)
        = [JSNum.posInf] ∧
    JSNum.finite .posInf = false := by decide

/-- C2 amended: every produced `hours`/`min`/`max` is a number and never NaN
(so never null/undefined/non-numeric), and history points have
`min = max = hours`; but the values need not be finite — an input coercing to
`±Infinity` is passed through by `|| 0`. -/
theorem normalize_never_nan :
    (∀ (logs : List LogEntry), ∀ p ∈ normalizeHistory logs,
        p.hours ≠ JSNum.nan ∧ p.min = p.hours ∧ p.max = p.hours) ∧
    (∀ (fs : List ForecastPoint), ∀ p ∈ normalizeForecast fs,
        p.hours ≠ JSNum.nan ∧ p.min ≠ JSNum.nan ∧ p.max ≠ JSNum.nan) := by
  constructor
  · intro logs p hp
    rw [normalizeHistory, mem_sortByDate, List.mem_map] at hp
    obtain ⟨log, _, rfl⟩ := hp
    exact ⟨jsOr_ne_nan _ _ (by simp), rfl, rfl⟩
  · intro fs p hp
    rw [normalizeForecast, List.mem_map] at hp
    obtain ⟨f, _, rfl⟩ := hp
    exact ⟨jsOr_ne_nan _ _ (by simp),
      jsOr_ne_nan _ _ (jsOr_ne_nan _ _ (by simp)),
      jsOr_ne_nan _ _ (jsOr_ne_nan _ _ (by simp))⟩

/-- C2 amended witness: a concrete well-formed entry. -/
theorem normalize_never_nan_witness :
    toHistoryPoint { date := "2024-01-01", duration := JSValue.str "2" }
        ∈ normalizeHistory [{ date := "2024-01-01", duration := JSValue.str "2" }] ∧
    ((toHistoryPoint { date := "2024-01-01", duration := JSValue.str "2" }).hours ≠ JSNum.nan ∧
      (toHistoryPoint { date := "2024-01-01", duration := JSValue.str "2" }).min
        = (toHistoryPoint { date := "2024-01-01", duration := JSValue.str "2" }).hours ∧
      (toHistoryPoint { date := "2024-01-01", duration := JSValue.str "2" }).max
        = (toHistoryPoint { date := "2024-01-01", duration := JSValue.str "2" }).hours) :=
  ⟨by decide,
    normalize_never_nan.1 [{ date := "2024-01-01", duration := JSValue.str "2" }]
      (toHistoryPoint { date := "2024-01-01", duration := JSValue.str "2" }) (by decide)⟩

/-- C6 counterexample: on the unparseable input `"not-a-date"`, `formatDate`
returns the substitute placeholder `"Invalid Date"`, not the original input:
`new Date` on a string never throws, so the catch branch is dead code. -/
theorem formatDate_cex :
    formatDate "not-a-date" = "Invalid Date" ∧ "Invalid Date" ≠ "not-a-date" := by
  decide

/-- C6 amended: `formatDate` never throws (it is a total function), but on an
unparseable input it returns the placeholder string `"Invalid Date"`, not the
original input; on a parseable input it returns the `"Mon D"` rendering. -/
theorem formatDate_total (s : String) :
    (parseDate s = none → formatDate s = "Invalid Date") ∧
    (∀ n, parseDate s = some n → formatDate s = formatMonthDay n) := by
  constructor
  · intro h
    simp only [formatDate, h]
  · intro n h
    simp only [formatDate, h]

/-- C6 amended witness. -/
theorem formatDate_total_witness : formatDate "hello" = "Invalid Date" :=
  (formatDate_total "hello").1 (by decide)

/-- C7: the summary is `{ point: none, confidencePercent: absent }` whenever
the bundle is absent, its forecast array is absent, or that array is empty. -/
theorem summarize_empty :
    summarize none = { point := none, confidencePercent := none } ∧
    (∀ bb : ForecastBundle, bb.forecast = none →
        summarize (some bb) = { point := none, confidencePercent := none }) ∧
    (∀ bb : ForecastBundle, bb.forecast = some [] →
        summarize (some bb) = { point := none, confidencePercent := none }) := by
  refine ⟨rfl, ?_, ?_⟩
  · rintro ⟨fc, conf⟩ h
    cases h
    rfl
  · rintro ⟨fc, conf⟩ h
    cases h
    rfl

/-- C7 witness: a bundle with an empty forecast array. -/
theorem summarize_empty_witness :
    summarize (some ⟨some [], some (.num (.val (1 : ℚ)))⟩)
      = { point := none, confidencePercent := none } :=
  summarize_empty.2.2 _ rfl

/-- The summary's selected point is exactly the `nextForecast` computation. -/
theorem summarize_point (b : Option ForecastBundle) :
    (summarize b).point = nextForecast b := by
  unfold summarize
  cases h : nextForecast b <;> simp [h]

/-- C9: the caller's array is observationally unchanged by the summary
computation (`[...fcArr]` copies; `.sort` mutates only the copy), and the
returned point is the `nextForecast` selection over the same array. -/
theorem nextForecast_no_mutation (fcArr : List ForecastPoint) :
    (nextForecastFrame fcArr).2 = fcArr ∧
    (nextForecastFrame fcArr).1 = (summarize (some ⟨some fcArr, none⟩)).point := by
  constructor
  · unfold nextForecastFrame
    split <;> rfl
  · rw [summarize_point]
    unfold nextForecastFrame nextForecast
    simp
    split <;> rfl

/-- C3 counterexample: a present, valid `range.min` of exactly 0 is NOT kept:
`Number(f.range?.min) || Number(f.hours) || 0` treats the valid number 0 as
falsy and falls back to the coerced hours (5 here), contradicting the claim's
"including the valid number 0". -/
theorem forecast_min_zero_cex :
    (normalizeForecast [{ date := "2024-01-02",
                          hours := JSValue.num (JSNum.val 5),
                          range := some { min := some (JSValue.num (JSNum.val 0)),
                                          max := some (JSValue.num (JSNum.val 10)) } }]).map
        (fun p => p.min)
      = [JSNum.val 5] ∧ (5 : ℚ) ≠ 0 := by decide

/-- C3 amended: each bound (`min`, and `max` by the same rule independently)
equals the coerced `f.range` bound only when that coercion is a nonzero
number; when the whole `range` object is absent, the bound itself is absent,
or the bound coerces to NaN or to the (valid) number 0, the bound falls back
to `Number(f.hours) || 0` — the `||` chain treats a valid 0 as invalid. -/
theorem forecast_range_rule (f : ForecastPoint) :
    (f.range = none →
        (toForecastChartPoint f).min = jsOr (jsToNumber f.hours) (JSNum.val 0) ∧
        (toForecastChartPoint f).max = jsOr (jsToNumber f.hours) (JSNum.val 0)) ∧
    (∀ r : RangeObj, f.range = some r →
      (∀ (v : JSValue) (q : ℚ), r.min = some v → jsToNumber v = JSNum.val q → q ≠ 0 →
          (toForecastChartPoint f).min = JSNum.val q) ∧
      (r.min = none → (toForecastChartPoint f).min = jsOr (jsToNumber f.hours) (JSNum.val 0)) ∧
      (∀ v : JSValue, r.min = some v → jsToNumber v = JSNum.nan →
          (toForecastChartPoint f).min = jsOr (jsToNumber f.hours) (JSNum.val 0)) ∧
      (∀ v : JSValue, r.min = some v → jsToNumber v = JSNum.val 0 →
          (toForecastChartPoint f).min = jsOr (jsToNumber f.hours) (JSNum.val 0)) ∧
      (∀ (w : JSValue) (q : ℚ), r.max = some w → jsToNumber w = JSNum.val q → q ≠ 0 →
          (toForecastChartPoint f).max = JSNum.val q) ∧
      (r.max = none → (toForecastChartPoint f).max = jsOr (jsToNumber f.hours) (JSNum.val 0)) ∧
      (∀ w : JSValue, r.max = some w → jsToNumber w = JSNum.nan →
          (toForecastChartPoint f).max = jsOr (jsToNumber f.hours) (JSNum.val 0)) ∧
      (∀ w : JSValue, r.max = some w → jsToNumber w = JSNum.val 0 →
          (toForecastChartPoint f).max = jsOr (jsToNumber f.hours) (JSNum.val 0))) := by
  constructor
  · intro hr
    constructor <;>
      simp [toForecastChartPoint, coerceRangeField, hr, jsOr, JSNum.falsy]
  · intro r hr
    refine ⟨?_, ?_, ?_, ?_, ?_, ?_, ?_, ?_⟩
    · intro v q hv hq h0
      simp [toForecastChartPoint, coerceRangeField, hr, hv, hq, jsOr, JSNum.falsy, h0]
    · intro hv
      simp [toForecastChartPoint, coerceRangeField, hr, hv, jsOr, JSNum.falsy]
    · intro v hv hq
      simp [toForecastChartPoint, coerceRangeField, hr, hv, hq, jsOr, JSNum.falsy]
    · intro v hv hq
      simp [toForecastChartPoint, coerceRangeField, hr, hv, hq, jsOr, JSNum.falsy]
    · intro w q hw hq h0
      simp [toForecastChartPoint, coerceRangeField, hr, hw, hq, jsOr, JSNum.falsy, h0]
    · intro hw
      simp [toForecastChartPoint, coerceRangeField, hr, hw, jsOr, JSNum.falsy]
    · intro w hw hq
      simp [toForecastChartPoint, coerceRangeField, hr, hw, hq, jsOr, JSNum.falsy]
    · intro w hw hq
      simp [toForecastChartPoint, coerceRangeField, hr, hw, hq, jsOr, JSNum.falsy]

/-- C3 amended witness: on one concrete point a nonzero valid `min` bound (2)
is kept while a `max` bound of the valid number 0 falls back to the coerced
hours (5). -/
theorem forecast_range_rule_witness :
    (toForecastChartPoint { date := "2024-01-02",
                            hours := JSValue.num (JSNum.val 5),
                            range := some { min := some (JSValue.num (JSNum.val 2)),
                                            max := some (JSValue.num (JSNum.val 0)) } }).min
        = JSNum.val 2 ∧
    (toForecastChartPoint { date := "2024-01-02",
                            hours := JSValue.num (JSNum.val 5),
                            range := some { min := some (JSValue.num (JSNum.val 2)),
                                            max := some (JSValue.num (JSNum.val 0)) } }).max
        = JSNum.val 5 :=
  ⟨((forecast_range_rule
        { date := "2024-01-02",
          hours := JSValue.num (JSNum.val 5),
          range := some { min := some (JSValue.num (JSNum.val 2)),
                          max := some (JSValue.num (JSNum.val 0)) } }).2
      { min := some (JSValue.num (JSNum.val 2)), max := some (JSValue.num (JSNum.val 0)) }
      rfl).1 (JSValue.num (JSNum.val 2)) 2 rfl rfl (by norm_num),
   (((forecast_range_rule
        { date := "2024-01-02",
          hours := JSValue.num (JSNum.val 5),
          range := some { min := some (JSValue.num (JSNum.val 2)),
                          max := some (JSValue.num (JSNum.val 0)) } }).2
      { min := some (JSValue.num (JSNum.val 2)), max := some (JSValue.num (JSNum.val 0)) }
      rfl).2.2.2.2.2.2.2 (JSValue.num (JSNum.val 0)) rfl rfl).trans (by decide)⟩

/-- C4 counterexample: a confidence of exactly 0 is a valid number, but
`forecast?.confidence ? ... : '—'` tests truthiness, 0 is falsy, and the
placeholder is rendered instead of the claimed "0%". -/
theorem confidence_zero_cex :
    confidencePercent (some { forecast := some [],
                              confidence := some (JSValue.num (JSNum.val 0)) }) = none ∧
    (none : Option JSNum) ≠ some (JSNum.val 0) := by decide

/-- C4 amended: a truthy (nonzero, non-NaN) numeric confidence yields
`round(confidence * 100)`; a confidence of 0, NaN, or an absent confidence all
yield the placeholder — zero confidence is conflated with unknown confidence. -/
theorem confidencePercent_rule (bb : ForecastBundle) :
    (∀ q : ℚ, bb.confidence = some (JSValue.num (JSNum.val q)) → q ≠ 0 →
        confidencePercent (some bb) = some (JSNum.val ((⌊q * 100 + 1 / 2⌋ : ℤ) : ℚ))) ∧
    (bb.confidence = some (JSValue.num (JSNum.val 0)) → confidencePercent (some bb) = none) ∧
    (bb.confidence = none → confidencePercent (some bb) = none) ∧
    (bb.confidence = some (JSValue.num JSNum.nan) → confidencePercent (some bb) = none) ∧
    confidencePercent none = none := by
  refine ⟨?_, ?_, ?_, ?_, rfl⟩
  · intro q hc h0
    simp [confidencePercent, hc, jsTruthy, JSNum.falsy, h0, jsMul100, jsRound, jsToNumber]
  · intro hc
    simp [confidencePercent, hc, jsTruthy, JSNum.falsy]
  · intro hc
    simp [confidencePercent, hc]
  · intro hc
    simp [confidencePercent, hc, jsTruthy, JSNum.falsy]

/-- C4 amended witness: confidence 1 renders as round(100). -/
theorem confidencePercent_rule_witness :
    confidencePercent (some { forecast := some [],
                              confidence := some (JSValue.num (JSNum.val 1)) })
      = some (JSNum.val ((⌊(1 : ℚ) * 100 + 1 / 2⌋ : ℤ) : ℚ)) :=
  (confidencePercent_rule
      { forecast := some [], confidence := some (JSValue.num (JSNum.val 1)) }).1
    1 rfl (by norm_num)

/-- C5 counterexample: the stats source rejects while the logs source fulfils
with one entry; `Promise.all` rejects, the catch branch runs, no setter is
invoked, and the chart series stays empty — the data of the succeeded logs
source is NOT reconciled or rendered, contradicting per-source degradation. -/
theorem loadData_batch_cex :
    (loadData initialState (Except.error ()) (Except.ok none)
        (Except.ok (some [{ date := "2024-01-01",
                            duration := JSValue.num (JSNum.val 2) }]))).logs = [] ∧
    normalizeHistory [{ date := "2024-01-01", duration := JSValue.num (JSNum.val 2) }] ≠ [] := by
  decide

/-- C5 amended: degradation is whole-batch, not per-source: if ANY of the three
sources rejects, all three state slots keep their defaults (`{0,0,0}` stats,
`none` forecast, empty series) and nothing from the succeeded sources is
rendered for that load; the per-source empty defaults apply only to sources
that fulfil with nullish data, on the all-fulfilled path. -/
theorem loadData_degradation :
    (∀ (sR : Except Unit (Option Stats)) (fR : Except Unit (Option ForecastBundle))
        (lR : Except Unit (Option (List LogEntry))),
      (sR = .error () ∨ fR = .error () ∨ lR = .error ()) →
        loadData initialState sR fR lR = { initialState with loading := false }) ∧
    (∀ ld : List LogEntry,
      loadData initialState (.ok none) (.ok none) (.ok (some ld))
        = { stats := defaultStats, forecast := none,
            logs := mergeSeries (normalizeHistory ld) (normalizeForecast []),
            loading := false }) := by
  constructor
  · intro sR fR lR h
    rcases h with rfl | rfl | rfl
    · cases fR <;> cases lR <;> rfl
    · cases sR <;> cases lR <;> rfl
    · cases sR <;> cases fR <;> rfl
  · intro ld
    rfl

/-- C5 amended witness: one rejected source resets everything. -/
theorem loadData_degradation_witness :
    loadData initialState (Except.error ()) (Except.ok none) (Except.ok none)
      = { initialState with loading := false } :=
  loadData_degradation.1 (Except.error ()) (Except.ok none) (Except.ok none) (Or.inl rfl)

/-- The head of the stable date sort is the first element of the input that
attains the minimal parsed date — exactly the spec's selection rule. -/
theorem head_sortByDate_forecast (l : List ForecastPoint) :
    (sortByDate (fun p => p.date) l).head? = earliestByDate l := by
  induction l with
  | nil => rfl
  | cons x t ih =>
      show (List.orderedInsert (keyLe fun a => dateNum a.date) x
          (sortByDate (fun p => p.date) t)).head? = earliestByDate (x :: t)
      have hE : earliestByDate (x :: t)
          = match earliestByDate t with
            | none => some x
            | some m => some (if dateNum m.date < dateNum x.date then m else x) := rfl
      cases h : sortByDate (fun p => p.date) t with
      | nil =>
          rw [h] at ih
          rw [hE, ← ih]
          rfl
      | cons b s =>
          rw [h] at ih
          simp only [List.head?_cons] at ih
          rw [List.orderedInsert, hE, ← ih]
          by_cases hxb : keyLe (fun a => dateNum a.date) x b
          · rw [if_pos hxb]
            have hxb' : dateNum x.date ≤ dateNum b.date := hxb
            simp [Nat.not_lt.2 hxb']
          · rw [if_neg hxb]
            have hxb' : dateNum b.date < dateNum x.date := Nat.not_le.1 hxb
            simp [hxb']

/-- C8: for a nonempty forecast array whose dates all parse, the summary
selects the earliest-dated point regardless of input order, and on ties the
first point in the original input order (the sort is stable). -/
theorem summarize_earliest (bb : ForecastBundle) (l : List ForecastPoint)
    (hl : bb.forecast = some l) (hne : l ≠ [])
    (hparse : ∀ p ∈ l, (parseDate p.date).isSome) :
    (summarize (some bb)).point = earliestByDate l := by
  have h0 : ¬ l.length = 0 := fun h => hne (List.length_eq_zero.mp h)
  have hfc : (((some bb).bind fun b => b.forecast).getD []) = l := by
    simp [hl]
  rw [summarize_point]
  unfold nextForecast
  rw [hfc, if_neg h0]
  exact head_sortByDate_forecast l

/-- C8 witness: the spec's own example, two points out of order. -/
theorem summarize_earliest_witness :
    (summarize (some { forecast :=
                         some [{ date := "2024-03-05", hours := JSValue.num (JSNum.val 3),
                                 range := none },
                               { date := "2024-03-01", hours := JSValue.num (JSNum.val 2),
                                 range := none }],
                       confidence := none })).point
      = earliestByDate
          [{ date := "2024-03-05", hours := JSValue.num (JSNum.val 3), range := none },
           { date := "2024-03-01", hours := JSValue.num (JSNum.val 2), range := none }] ∧
    earliestByDate
          [{ date := "2024-03-05", hours := JSValue.num (JSNum.val 3), range := none },
           { date := "2024-03-01", hours := JSValue.num (JSNum.val 2), range := none }]
      = some { date := "2024-03-01", hours := JSValue.num (JSNum.val 2), range := none } :=
  ⟨summarize_earliest _ _ rfl (by decide) (by decide), by decide⟩

/-- Stability of `orderedInsert` for a pairwise invariant that holds
automatically between elements of different keys: the inserted element only
jumps over elements of strictly smaller key. -/
theorem pairwise_orderedInsert {α : Type} (key : α → ℕ) (r : α → α → Prop)
    (hr : ∀ x y, key x ≠ key y → r x y) (a : α) :
    ∀ s : List α, s.Pairwise r → (∀ b ∈ s, r a b) →
      (List.orderedInsert (keyLe key) a s).Pairwise r := by
  intro s
  induction s with
  | nil =>
      intro _ _
      simpa using List.pairwise_singleton r a
  | cons b t ih =>
      intro hp ha
      rw [List.orderedInsert]
      by_cases hab : keyLe key a b
      · rw [if_pos hab]
        exact List.pairwise_cons.2 ⟨ha, hp⟩
      · rw [if_neg hab]
        have hba : key b < key a := Nat.not_le.1 hab
        refine List.pairwise_cons.2 ⟨?_, ?_⟩
        · intro c hc
          rcases (List.mem_orderedInsert _).1 hc with rfl | hct
          · exact hr b c (Nat.ne_of_lt hba)
          · exact (List.pairwise_cons.1 hp).1 c hct
        · exact ih (List.pairwise_cons.1 hp).2
            (fun c hc => ha c (List.mem_cons_of_mem b hc))

/-- Stability of the date sort for such invariants. -/
theorem pairwise_sortByDate {α : Type} (key : α → String) (r : α → α → Prop)
    (hr : ∀ x y, dateNum (key x) ≠ dateNum (key y) → r x y) :
    ∀ l : List α, l.Pairwise r → (sortByDate key l).Pairwise r := by
  intro l
  induction l with
  | nil =>
      intro _
      simp [sortByDate]
  | cons a t ih =>
      intro hp
      show (List.orderedInsert (keyLe fun x => dateNum (key x)) a
          (sortByDate key t)).Pairwise r
      refine pairwise_orderedInsert _ r hr a _ ?_ ?_
      · exact ih (List.pairwise_cons.1 hp).2
      · intro b hb
        exact (List.pairwise_cons.1 hp).1 b ((mem_sortByDate key t b).1 hb)

/-- C10: in the merged series, whenever two points' dates parse to the same
calendar instant, a forecast-typed point never precedes a history-typed point:
history is concatenated before forecast and the sort is stable with a
comparator that returns 0 on equal parsed dates, so the tie-break is fixed to
history-before-forecast. -/
theorem merge_history_before_forecast (H F : List ChartPoint)
    (hH : ∀ p ∈ H, p.type = "history") (hF : ∀ p ∈ F, p.type = "forecast") :
    (mergeSeries H F).Pairwise fun a b =>
      ∀ t, parseDate a.date = some t → parseDate b.date = some t →
        ¬(a.type = "forecast" ∧ b.type = "history") := by
  apply pairwise_sortByDate
  · intro x y hxy t hx hy _
    apply hxy
    rw [dateNum, dateNum, hx, hy]
  · refine List.pairwise_append.2 ⟨?_, ?_, ?_⟩
    · refine List.pairwise_of_forall_mem_list ?_
      intro a haMem b _ t _ _ hc
      exact (by decide : "history" ≠ "forecast") ((hH a haMem).symm.trans hc.1)
    · refine List.pairwise_of_forall_mem_list ?_
      intro a _ b hbMem t _ _ hc
      exact (by decide : "forecast" ≠ "history") ((hF b hbMem).symm.trans hc.2)
    · intro a haMem b _ t _ _ hc
      exact (by decide : "history" ≠ "forecast") ((hH a haMem).symm.trans hc.1)

/-- C10 witness: one history and one forecast point sharing a date. -/
theorem merge_history_before_forecast_witness :
    (mergeSeries
        [{ date := "2024-01-02", hours := JSNum.val 2, min := JSNum.val 2,
           max := JSNum.val 2, type := "history" }]
        [{ date := "2024-01-02", hours := JSNum.val 3, min := JSNum.val 1,
           max := JSNum.val 4, type := "forecast" }]).Pairwise
      (fun a b => ∀ t, parseDate a.date = some t → parseDate b.date = some t →
        ¬(a.type = "forecast" ∧ b.type = "history")) :=
  merge_history_before_forecast _ _ (by decide) (by decide)
